import Mathlib

/-!
Shallow embedding of the JoinGo AI Summary Server core
(`src/services/storage.service.ts`, `src/services/summarizer.service.ts`,
and the Socket.IO handlers of `src/server.ts`).

Modelling conventions:
- ISO-8601 timestamp strings produced by `new Date().toISOString()` are
  modelled by their epoch value as an `Int` (`toISOString` and
  `new Date(s).getTime()` round-trip on valid dates); the claims under
  verification never depend on the textual form of a timestamp.
- The JavaScript `Map<string, MeetingData>` is modelled as an insertion-ordered
  association list with at most one binding per key (`setMeeting` overwrites in
  place, as `Map.set` does); in-place mutation of the stored object is modelled
  by writing the updated record back at the same key.
- A `Buffer` of audio bytes is modelled as `List Nat`.
- Results of external collaborators (Whisper transcription, the Claude API) are
  explicit parameters of the handler functions: `Except`/`ClaudeResult` values
  describing the one outcome the real call produced.
- Each Socket.IO handler is a pure function from the store (plus the
  collaborator outcomes and the current time) to the new store and the ordered
  list of emitted events, each tagged with its destination
  (`socket.emit`, `socket.to(room).emit`, `io.to(room).emit`).
-/

namespace JoinGo

/-- A meeting participant (`Participant` in `types/meeting.types.ts`). -/
structure Participant where
  id : String
  name : String
  email : String
deriving DecidableEq, Repr

/-- A recognized speech segment (`Transcription` in `types/meeting.types.ts`). -/
structure Transcription where
  userId : String
  userName : String
  text : String
  timestamp : Int
deriving DecidableEq, Repr

/-- A chat message (`ChatMessage` in `types/meeting.types.ts`). -/
structure ChatMessage where
  userId : String
  userName : String
  message : String
  timestamp : Int
deriving DecidableEq, Repr

/-- A raw audio chunk (`AudioChunk` in `types/meeting.types.ts`). -/
structure AudioChunk where
  userId : String
  userName : String
  data : List Nat
  timestamp : Int
deriving DecidableEq, Repr

/-- Full per-meeting session state (`MeetingData` in `types/meeting.types.ts`). -/
structure MeetingData where
  meetingId : String
  participants : List Participant
  transcriptions : List Transcription
  chatMessages : List ChatMessage
  audioChunks : List AudioChunk
  startTime : Int
  endTime : Option Int
deriving DecidableEq, Repr

/-- A task inside a summary (`Task` in `types/meeting.types.ts`). -/
structure Task where
  description : String
  assignee : String
  deadline : Option String
deriving DecidableEq, Repr

/-- A participant's contribution note (`ParticipantContribution`). -/
structure ParticipantContribution where
  name : String
  contributions : String
deriving DecidableEq, Repr

/-- A structured meeting summary (`Summary` in `types/meeting.types.ts`). -/
structure Summary where
  summary : String
  participants : List ParticipantContribution
  topics : List String
  tasks : List Task
  nextSteps : List String
  generatedAt : Int
  meetingDuration : Option String
deriving DecidableEq, Repr

/-- The in-memory meeting map of `StorageService` (`Map<string, MeetingData>`). -/
abbrev Meetings := List (String × MeetingData)

/-- Lookup in the meeting map (`Map.get` / `Map.has`). -/
def findMeeting : Meetings → String → Option MeetingData
  | [], _ => none
  | (k, d) :: rest, key => if k = key then some d else findMeeting rest key

/-- Write a binding into the meeting map (`Map.set`): overwrites the existing
binding in place, appends a new one otherwise. -/
def setMeeting : Meetings → String → MeetingData → Meetings
  | [], key, d => [(key, d)]
  | (k, d0) :: rest, key, d =>
    if k = key then (key, d) :: rest else (k, d0) :: setMeeting rest key d

/-- The fresh session object created by `initMeeting`'s `Map.set` call. -/
def freshMeeting (meetingId : String) (now : Int) : MeetingData :=
  { meetingId := meetingId
    participants := []
    transcriptions := []
    chatMessages := []
    audioChunks := []
    startTime := now
    endTime := none }

/-- `StorageService.initMeeting`: create the session if absent, otherwise do
nothing. `now` is the value of `new Date()` at the call. -/
def initMeeting (now : Int) (ms : Meetings) (meetingId : String) : Meetings :=
  if (findMeeting ms meetingId).isSome then ms
  else setMeeting ms meetingId (freshMeeting meetingId now)

/-- `StorageService.addParticipant`: ensure the session, then append the
participant unless a participant with the same id is already present. -/
def addParticipant (now : Int) (ms : Meetings) (meetingId : String) (p : Participant) :
    Meetings :=
  match findMeeting (initMeeting now ms meetingId) meetingId with
  | none => initMeeting now ms meetingId
  | some meeting =>
    if meeting.participants.any (fun q => q.id == p.id) then initMeeting now ms meetingId
    else setMeeting (initMeeting now ms meetingId) meetingId
      { meeting with participants := meeting.participants ++ [p] }

/-- `StorageService.addAudioChunk`: ensure the session, then append the chunk. -/
def addAudioChunk (now : Int) (ms : Meetings) (meetingId : String) (c : AudioChunk) :
    Meetings :=
  match findMeeting (initMeeting now ms meetingId) meetingId with
  | none => initMeeting now ms meetingId
  | some meeting =>
    setMeeting (initMeeting now ms meetingId) meetingId
      { meeting with audioChunks := meeting.audioChunks ++ [c] }

/-- `StorageService.addTranscription`: ensure the session, then append the
transcription entry. -/
def addTranscription (now : Int) (ms : Meetings) (meetingId : String) (t : Transcription) :
    Meetings :=
  match findMeeting (initMeeting now ms meetingId) meetingId with
  | none => initMeeting now ms meetingId
  | some meeting =>
    setMeeting (initMeeting now ms meetingId) meetingId
      { meeting with transcriptions := meeting.transcriptions ++ [t] }

/-- `StorageService.addChatMessage`: ensure the session, then append the chat
message. -/
def addChatMessage (now : Int) (ms : Meetings) (meetingId : String) (m : ChatMessage) :
    Meetings :=
  match findMeeting (initMeeting now ms meetingId) meetingId with
  | none => initMeeting now ms meetingId
  | some meeting =>
    setMeeting (initMeeting now ms meetingId) meetingId
      { meeting with chatMessages := meeting.chatMessages ++ [m] }

/-- `StorageService.endMeeting`: if the session exists, set `endTime` to the
current time (unconditionally overwriting any previous value). -/
def endMeeting (now : Int) (ms : Meetings) (meetingId : String) : Meetings :=
  match findMeeting ms meetingId with
  | none => ms
  | some meeting => setMeeting ms meetingId { meeting with endTime := some now }

/-- `StorageService.getMeetingData`. -/
def getMeetingData (ms : Meetings) (meetingId : String) : Option MeetingData :=
  findMeeting ms meetingId

/-- `StorageService.clearMeeting` (`Map.delete`): remove the binding, reporting
whether one was present. -/
def clearMeeting (ms : Meetings) (meetingId : String) : Meetings × Bool :=
  (ms.filter (fun kv => !(kv.1 == meetingId)), (findMeeting ms meetingId).isSome)

/-- The session returned by a `Map.get` that immediately follows
`initMeeting`: the stored session when one was already present, the fresh
session otherwise. -/
def ensured (now : Int) (ms : Meetings) (meetingId : String) : MeetingData :=
  (findMeeting ms meetingId).getD (freshMeeting meetingId now)

/-- The effect of `addParticipant` on a single session value. -/
def participantStep (md : MeetingData) (p : Participant) : MeetingData :=
  if md.participants.any (fun q => q.id == p.id) then md
  else { md with participants := md.participants ++ [p] }

theorem findMeeting_setMeeting_self (ms : Meetings) (k : String) (d : MeetingData) :
    findMeeting (setMeeting ms k d) k = some d := by
  induction ms with
  | nil => simp [setMeeting, findMeeting]
  | cons kv rest ih =>
    obtain ⟨k0, d0⟩ := kv
    by_cases h : k0 = k
    · simp [setMeeting, h, findMeeting]
    · simp [setMeeting, h, findMeeting, ih]

theorem initMeeting_of_found {ms : Meetings} {k : String} {md : MeetingData}
    (h : findMeeting ms k = some md) (now : Int) : initMeeting now ms k = ms := by
  simp [initMeeting, h]

theorem initMeeting_of_absent {ms : Meetings} {k : String}
    (h : findMeeting ms k = none) (now : Int) :
    initMeeting now ms k = setMeeting ms k (freshMeeting k now) := by
  simp [initMeeting, h]

theorem findMeeting_initMeeting (now : Int) (ms : Meetings) (k : String) :
    findMeeting (initMeeting now ms k) k = some (ensured now ms k) := by
  cases h : findMeeting ms k with
  | none =>
    rw [initMeeting_of_absent h, findMeeting_setMeeting_self]
    simp [ensured, h]
  | some md =>
    rw [initMeeting_of_found h]
    simp [ensured, h]

theorem findMeeting_addParticipant (now : Int) (ms : Meetings) (k : String)
    (p : Participant) :
    findMeeting (addParticipant now ms k p) k = some (participantStep (ensured now ms k) p) := by
  have h1 := findMeeting_initMeeting now ms k
  unfold addParticipant participantStep
  rw [h1]
  by_cases hc : (ensured now ms k).participants.any (fun q => q.id == p.id)
  · simp [hc, h1]
  · simp [hc, findMeeting_setMeeting_self]

theorem findMeeting_addAudioChunk (now : Int) (ms : Meetings) (k : String)
    (c : AudioChunk) :
    findMeeting (addAudioChunk now ms k c) k
      = some { ensured now ms k with audioChunks := (ensured now ms k).audioChunks ++ [c] } := by
  have h1 := findMeeting_initMeeting now ms k
  unfold addAudioChunk
  rw [h1]
  simp [findMeeting_setMeeting_self]

theorem findMeeting_addTranscription (now : Int) (ms : Meetings) (k : String)
    (t : Transcription) :
    findMeeting (addTranscription now ms k t) k
      = some { ensured now ms k with
               transcriptions := (ensured now ms k).transcriptions ++ [t] } := by
  have h1 := findMeeting_initMeeting now ms k
  unfold addTranscription
  rw [h1]
  simp [findMeeting_setMeeting_self]

theorem findMeeting_addChatMessage (now : Int) (ms : Meetings) (k : String)
    (m : ChatMessage) :
    findMeeting (addChatMessage now ms k m) k
      = some { ensured now ms k with
               chatMessages := (ensured now ms k).chatMessages ++ [m] } := by
  have h1 := findMeeting_initMeeting now ms k
  unfold addChatMessage
  rw [h1]
  simp [findMeeting_setMeeting_self]

theorem findMeeting_endMeeting_of_found {ms : Meetings} {k : String} {md : MeetingData}
    (h : findMeeting ms k = some md) (now : Int) :
    findMeeting (endMeeting now ms k) k = some { md with endTime := some now } := by
  unfold endMeeting
  rw [h]
  simp [findMeeting_setMeeting_self]

theorem endMeeting_of_absent {ms : Meetings} {k : String}
    (h : findMeeting ms k = none) (now : Int) : endMeeting now ms k = ms := by
  unfold endMeeting
  rw [h]

theorem ensured_of_found {ms : Meetings} {k : String} {md : MeetingData}
    (h : findMeeting ms k = some md) (now : Int) : ensured now ms k = md := by
  simp [ensured, h]

/-- Outcome of one Claude API interaction inside `SummarizerService`.
`apiError` models `messages.create` (or any step before parsing) throwing;
`response` carries the extracted response text together with the outcome of
`JSON.parse` on the cleaned text: `none` when parsing throws, and otherwise
one `Option` per field of the parsed object, `none` standing for an absent or
falsy property (covering the JavaScript `||` defaults). -/
structure ParsedFields where
  summary : Option String
  participants : Option (List ParticipantContribution)
  topics : Option (List String)
  tasks : Option (List Task)
  nextSteps : Option (List String)
deriving DecidableEq, Repr

/-- Result of one call to the Claude messages API, see `ParsedFields`. -/
inductive ClaudeResult where
  | apiError (msg : String)
  | response (text : String) (parsed : Option ParsedFields)
deriving DecidableEq, Repr

/-- JavaScript `s.substring(0, n)`, modelled over characters. -/
def truncateTo (n : Nat) (s : String) : String :=
  String.mk (s.toList.take n)

/-- `SummarizerService.calculateDuration` (`Math.floor` is floor division,
the JavaScript `%` on the nonnegative minute count is truncated remainder). -/
def calculateDuration (startTime : Int) (endTime : Option Int) : String :=
  match endTime with
  | none => "Duración no disponible"
  | some e =>
    let diffMs : Int := e - startTime
    let diffMins : Int := Int.fdiv diffMs 60000
    if diffMins < 60 then
      toString diffMins ++ " minutos"
    else
      toString (Int.fdiv diffMins 60) ++ "h " ++ toString (Int.tmod diffMins 60) ++ "min"

/-- `SummarizerService.parseClaudeResponse`: on a parsed object, take each
field with its `||` default; when `JSON.parse` throws, build the mechanical
fallback summary from the snapshot. `now` is `new Date()` at the call. -/
def parseClaudeResponse (parsed : Option ParsedFields) (responseText : String)
    (meetingData : MeetingData) (now : Int) : Summary :=
  match parsed with
  | some p =>
    { summary := p.summary.getD "No se pudo generar un resumen."
      participants := p.participants.getD []
      topics := p.topics.getD []
      tasks := p.tasks.getD []
      nextSteps := p.nextSteps.getD []
      generatedAt := now
      meetingDuration := some (calculateDuration meetingData.startTime meetingData.endTime) }
  | none =>
    { summary := truncateTo 500 responseText ++ "..."
      participants := meetingData.participants.map
        (fun p => { name := p.name, contributions := "Participó en la reunión" })
      topics := ["Información de la reunión procesada"]
      tasks := []
      nextSteps := ["Revisar el contenido de la reunión"]
      generatedAt := now
      meetingDuration := some (calculateDuration meetingData.startTime meetingData.endTime) }

/-- `SummarizerService.generateSummary`: an API-level failure is rethrown as
`Failed to generate summary: ...`; otherwise the response is parsed (the
parser itself never throws, its fallback branch handles parse failures). -/
def generateSummary (meetingData : MeetingData) (claude : ClaudeResult) (now : Int) :
    Except String Summary :=
  match claude with
  | ClaudeResult.apiError msg => Except.error ("Failed to generate summary: " ++ msg)
  | ClaudeResult.response text parsed =>
    Except.ok (parseClaudeResponse parsed text meetingData now)

/-- `SummarizerService.generateQuickSummary`: returns the trimmed response
text, and on any collaborator failure swallows the error and returns the
fixed fallback string. The snapshot is only read (to build the prompt). -/
def generateQuickSummary (meetingData : MeetingData) (claude : Except String String) :
    String :=
  match claude with
  | Except.ok text => text.trim
  | Except.error _ => "No se pudo generar un resumen rápido."

/-- Destination of one emitted Socket.IO event: the requesting socket
(`socket.emit`), the meeting room minus the sender (`socket.to(room).emit`),
or the whole meeting room (`io.to(room).emit`). -/
inductive Dest where
  | senderSocket
  | roomExceptSender (meetingId : String)
  | room (meetingId : String)
deriving DecidableEq, Repr

/-- An outbound Socket.IO event with its payload fields. -/
inductive OutEvent where
  | participantJoined (userId userName : String) (timestamp : Int)
  | joinedMeeting (success : Bool) (meetingId message : String)
  | liveTranscription (userId userName text : String) (timestamp : Int)
  | audioChunkError (meetingId error : String)
  | chatMessageReceived (success : Bool) (timestamp : Int)
  | summaryGenerating (meetingId message : String)
  | summaryReady (meetingId : String) (summary : Summary) (emailSent : Bool)
  | summaryError (meetingId error : String)
  | quickSummaryReady (meetingId summaryText : String)
  | quickSummaryError (meetingId error : String)
  | participantLeft (userId userName : String) (timestamp : Int)
deriving DecidableEq, Repr

/-- Socket.IO room membership: meeting key to member socket ids. -/
abbrev Rooms := List (String × List String)

/-- Lookup of a room's member list. -/
def findRoom : Rooms → String → Option (List String)
  | [], _ => none
  | (k, members) :: rest, key => if k = key then some members else findRoom rest key

/-- Members of a meeting's room (empty when the room does not exist). -/
def roomMembers (rooms : Rooms) (meetingId : String) : List String :=
  (findRoom rooms meetingId).getD []

/-- `socket.join(meetingId)`: add the socket to the room (idempotent). -/
def socketJoin : Rooms → String → String → Rooms
  | [], meetingId, sid => [(meetingId, [sid])]
  | (k, members) :: rest, meetingId, sid =>
    if k = meetingId then
      (k, if members.contains sid then members else members ++ [sid]) :: rest
    else (k, members) :: socketJoin rest meetingId sid

/-- `socket.leave(meetingId)`: remove the socket from the room. -/
def socketLeave : Rooms → String → String → Rooms
  | [], _, _ => []
  | (k, members) :: rest, meetingId, sid =>
    if k = meetingId then (k, members.filter (fun s => !(s == sid))) :: rest
    else (k, members) :: socketLeave rest meetingId sid

/-- Socket ids a destination resolves to, given the rooms at emission time and
the id of the socket whose handler emits. -/
def recipients (rooms : Rooms) (sender : String) : Dest → List String
  | Dest.senderSocket => [sender]
  | Dest.roomExceptSender meetingId =>
    (roomMembers rooms meetingId).filter (fun s => !(s == sender))
  | Dest.room meetingId => roomMembers rooms meetingId

/-- Server-side state the socket handlers touch: the storage service's map and
the Socket.IO room membership. -/
structure ServerState where
  store : Meetings
  rooms : Rooms
deriving DecidableEq, Repr

/-- The `join-meeting` handler of `server.ts`: join the room, add the
participant to storage, notify the room (excluding the sender) and
acknowledge to the sender. -/
def joinMeetingHandler (st : ServerState) (sid : String)
    (meetingId userId userName userEmail : String) (now : Int) :
    ServerState × List (Dest × OutEvent) :=
  ({ store := addParticipant now st.store meetingId
        { id := userId, name := userName, email := userEmail }
     rooms := socketJoin st.rooms meetingId sid },
   [(Dest.roomExceptSender meetingId, OutEvent.participantJoined userId userName now),
    (Dest.senderSocket,
      OutEvent.joinedMeeting true meetingId ("Successfully joined meeting " ++ meetingId))])

/-- The `audio-chunk` handler of `server.ts`: store the raw chunk first, then
integrate the transcription outcome. On transcription failure only a warning
is logged: no transcript entry, no emission, no abort (the outer catch that
emits `audio-chunk-error` is unreachable for a transcription failure because
the inner catch already swallowed it). Both the stored transcript entry and
the `live-transcription` broadcast carry the inbound `timestamp` field;
`now` (the processing time) is used only if the session must be created. -/
def audioChunkHandler (st : Meetings) (meetingId userId userName : String)
    (audioData : List Nat) (timestamp : Int) (now : Int)
    (transcribed : Except String String) : Meetings × List (Dest × OutEvent) :=
  match transcribed with
  | Except.error _ =>
    (addAudioChunk now st meetingId
      { userId := userId, userName := userName, data := audioData, timestamp := timestamp },
     [])
  | Except.ok text =>
    (addTranscription now
      (addAudioChunk now st meetingId
        { userId := userId, userName := userName, data := audioData, timestamp := timestamp })
      meetingId
      { userId := userId, userName := userName, text := text, timestamp := timestamp },
     [(Dest.room meetingId, OutEvent.liveTranscription userId userName text timestamp)])

/-- The `chat-message` handler of `server.ts`. -/
def chatMessageHandler (st : Meetings) (meetingId userId userName message : String)
    (timestamp : Int) (now : Int) : Meetings × List (Dest × OutEvent) :=
  (addChatMessage now st meetingId
    { userId := userId, userName := userName, message := message, timestamp := timestamp },
   [(Dest.senderSocket, OutEvent.chatMessageReceived true timestamp)])

/-- Outcome of one `generate-summary` trigger: the store afterwards, the
emitted events in order, how many times the summarization collaborator was
invoked during the trigger, and whether the deferred `clearMeeting` timer was
scheduled. -/
structure SummaryTriggerOutcome where
  store : Meetings
  emits : List (Dest × OutEvent)
  summarizerCalls : Nat
  clearScheduled : Bool
deriving DecidableEq, Repr

/-- The `generate-summary` handler of `server.ts`: mark the meeting ended,
read the snapshot (throwing `Meeting data not found` when absent, caught as a
`summary-error` emission), emit `summary-generating`, invoke the summarizer
once, attempt the email best-effort (its failure only logs; the payload field
`emailSent` is the literal `true` either way), broadcast `summary-ready` to
the room and redundantly to the requesting socket, and schedule the deferred
clear. A summarizer failure is caught and emitted as `summary-error`. -/
def generateSummaryHandler (st : Meetings) (meetingId : String)
    (claude : ClaudeResult) (emailOk : Bool) (now : Int) : SummaryTriggerOutcome :=
  match findMeeting (endMeeting now st meetingId) meetingId with
  | none =>
    { store := endMeeting now st meetingId
      emits := [(Dest.senderSocket, OutEvent.summaryError meetingId "Meeting data not found")]
      summarizerCalls := 0
      clearScheduled := false }
  | some meetingData =>
    match generateSummary meetingData claude now with
    | Except.error msg =>
      { store := endMeeting now st meetingId
        emits :=
          [(Dest.senderSocket,
              OutEvent.summaryGenerating meetingId "Generando resumen con IA..."),
           (Dest.senderSocket, OutEvent.summaryError meetingId msg)]
        summarizerCalls := 1
        clearScheduled := false }
    | Except.ok summary =>
      { store := endMeeting now st meetingId
        emits :=
          [(Dest.senderSocket,
              OutEvent.summaryGenerating meetingId "Generando resumen con IA..."),
           (Dest.room meetingId, OutEvent.summaryReady meetingId summary true),
           (Dest.senderSocket, OutEvent.summaryReady meetingId summary true)]
        summarizerCalls := 1
        clearScheduled := true }

/-- Two sequential `generate-summary` triggers for the same key (a sequential
schedule of the two racing triggers: the single-threaded event loop runs the
synchronous prefix of each handler atomically, and nothing in the handler
checks lifecycle state in between). -/
def twoSummaryTriggers (st : Meetings) (meetingId : String)
    (c1 c2 : ClaudeResult) (e1 e2 : Bool) (t1 t2 : Int) :
    SummaryTriggerOutcome × SummaryTriggerOutcome :=
  (generateSummaryHandler st meetingId c1 e1 t1,
   generateSummaryHandler (generateSummaryHandler st meetingId c1 e1 t1).store
     meetingId c2 e2 t2)

/-- Whether an emission is a `summary-ready` broadcast to the given meeting's
room. -/
def isRoomSummaryReady (meetingId : String) : Dest × OutEvent → Bool
  | (Dest.room mid, OutEvent.summaryReady _ _ _) => mid == meetingId
  | _ => false

/-- Number of `summary-ready` broadcasts to the meeting's room in an emission
list. -/
def roomSummaryReadyCount (meetingId : String) (emits : List (Dest × OutEvent)) : Nat :=
  (emits.filter (isRoomSummaryReady meetingId)).length

/-- The `get-quick-summary` handler of `server.ts`: read-only; unknown key
throws `Meeting data not found`, caught as `quick-summary-error`; otherwise
`quick-summary-ready` carries the quick summary (which never throws). -/
def getQuickSummaryHandler (st : Meetings) (meetingId : String)
    (claude : Except String String) : Meetings × List (Dest × OutEvent) :=
  match findMeeting st meetingId with
  | none =>
    (st, [(Dest.senderSocket, OutEvent.quickSummaryError meetingId "Meeting data not found")])
  | some meetingData =>
    (st, [(Dest.senderSocket,
           OutEvent.quickSummaryReady meetingId (generateQuickSummary meetingData claude))])

/-- The `leave-meeting` handler of `server.ts`: leave the room and notify the
remaining members; storage is not touched. -/
def leaveMeetingHandler (st : ServerState) (sid : String)
    (meetingId userId userName : String) (now : Int) :
    ServerState × List (Dest × OutEvent) :=
  ({ st with rooms := socketLeave st.rooms meetingId sid },
   [(Dest.roomExceptSender meetingId, OutEvent.participantLeft userId userName now)])

/-- Sequential application of a list of `join` events (their participant
records) addressed to one meeting key. -/
def applyJoins (now : Int) (ms : Meetings) (meetingId : String) :
    List Participant → Meetings
  | [] => ms
  | p :: rest => applyJoins now (addParticipant now ms meetingId p) meetingId rest

/-- Fold of `participantStep` over a list of joins, the session-value image of
`applyJoins`. -/
def participantFold (md : MeetingData) : List Participant → MeetingData
  | [] => md
  | p :: rest => participantFold (participantStep md p) rest

/-- First-seen deduplication of a list of identifiers: scan left to right and
keep each identifier at the position of its first occurrence. -/
def dedupAccumIds (seen : List String) : List String → List String
  | [] => seen
  | x :: xs => dedupAccumIds (if seen.contains x then seen else seen ++ [x]) xs

theorem any_id_eq_contains (l : List Participant) (x : String) :
    (l.any fun q => q.id == x) = (l.map (fun q => q.id)).contains x := by
  induction l with
  | nil => rfl
  | cons q rest ih =>
    by_cases h : q.id = x
    · simp [h]
    · have h2 : ¬x = q.id := fun hx => h hx.symm
      simp [List.any_cons, List.contains_cons, ih, h, h2]

theorem findMeeting_applyJoins (now : Int) {ms : Meetings} {meetingId : String}
    (ps : List Participant) {md : MeetingData}
    (h : findMeeting ms meetingId = some md) :
    findMeeting (applyJoins now ms meetingId ps) meetingId
      = some (participantFold md ps) := by
  induction ps generalizing ms md with
  | nil => simpa [applyJoins, participantFold] using h
  | cons p rest ih =>
    have h1 : findMeeting (addParticipant now ms meetingId p) meetingId
        = some (participantStep md p) := by
      rw [findMeeting_addParticipant, ensured_of_found h]
    simpa [applyJoins, participantFold] using ih h1

theorem participantStep_ids (md : MeetingData) (p : Participant) :
    (participantStep md p).participants.map (fun q => q.id)
      = if (md.participants.map (fun q => q.id)).contains p.id
        then md.participants.map (fun q => q.id)
        else md.participants.map (fun q => q.id) ++ [p.id] := by
  unfold participantStep
  rw [any_id_eq_contains]
  cases hc : (md.participants.map (fun q => q.id)).contains p.id
  · simp
  · simp

theorem participantFold_ids (ps : List Participant) (md : MeetingData) :
    (participantFold md ps).participants.map (fun q => q.id)
      = dedupAccumIds (md.participants.map (fun q => q.id)) (ps.map (fun q => q.id)) := by
  induction ps generalizing md with
  | nil => rfl
  | cons p rest ih =>
    have h1 := ih (participantStep md p)
    rw [participantFold, h1, participantStep_ids]
    rw [List.map_cons, dedupAccumIds]

theorem contains_iff_mem (l : List String) (x : String) :
    l.contains x = true ↔ x ∈ l := by
  rw [List.contains_eq_any_beq, List.any_eq_true]
  constructor
  · rintro ⟨a, ha, hax⟩
    have hxa : x = a := by simpa using hax
    rw [hxa]
    exact ha
  · intro hx
    exact ⟨x, hx, by simp⟩

theorem dedupAccumIds_nodup (l : List String) (seen : List String)
    (hs : seen.Nodup) : (dedupAccumIds seen l).Nodup := by
  induction l generalizing seen with
  | nil => simpa [dedupAccumIds] using hs
  | cons x xs ih =>
    rw [dedupAccumIds]
    cases hc : seen.contains x
    · have hx : x ∉ seen := fun hmem => by
        have := (contains_iff_mem seen x).mpr hmem
        rw [hc] at this
        cases this
      have hnd : (seen ++ [x]).Nodup := by
        rw [List.nodup_append]
        refine ⟨hs, List.nodup_singleton x, ?_⟩
        intro a ha hax
        rw [List.mem_singleton] at hax
        exact hx (hax ▸ ha)
      simpa using ih (seen ++ [x]) hnd
    · simpa using ih seen hs

theorem mem_dedupAccumIds (l : List String) (seen : List String) (y : String) :
    y ∈ dedupAccumIds seen l ↔ y ∈ seen ∨ y ∈ l := by
  induction l generalizing seen with
  | nil => simp [dedupAccumIds]
  | cons x xs ih =>
    rw [dedupAccumIds]
    cases hc : seen.contains x
    · have hgoal : y ∈ dedupAccumIds (seen ++ [x]) xs ↔ y ∈ seen ∨ y ∈ x :: xs := by
        rw [ih]
        simp [List.mem_append, List.mem_cons]
        tauto
      simpa using hgoal
    · have hx : x ∈ seen := (contains_iff_mem seen x).mp hc
      have hgoal : y ∈ dedupAccumIds seen xs ↔ y ∈ seen ∨ y ∈ x :: xs := by
        rw [ih]
        constructor
        · rintro (h | h)
          · exact Or.inl h
          · exact Or.inr (List.mem_cons_of_mem _ h)
        · rintro (h | h)
          · exact Or.inl h
          · rcases List.mem_cons.mp h with h | h
            · exact Or.inl (h ▸ hx)
            · exact Or.inr h
      simpa using hgoal

theorem roomMembers_cons_ne {k meetingId : String} (members : List String)
    (rest : Rooms) (h : ¬k = meetingId) :
    roomMembers ((k, members) :: rest) meetingId = roomMembers rest meetingId := by
  simp [roomMembers, findRoom, h]

theorem roomMembers_socketLeave (rooms : Rooms) (meetingId sid : String) :
    roomMembers (socketLeave rooms meetingId sid) meetingId
      = (roomMembers rooms meetingId).filter (fun s => !(s == sid)) := by
  induction rooms with
  | nil => simp [socketLeave, roomMembers, findRoom]
  | cons kv rest ih =>
    obtain ⟨k, members⟩ := kv
    by_cases h : k = meetingId
    · subst h
      simp [socketLeave, roomMembers, findRoom]
    · have h2 : socketLeave ((k, members) :: rest) meetingId sid
          = (k, members) :: socketLeave rest meetingId sid := by
        simp [socketLeave, h]
      rw [h2, roomMembers_cons_ne _ _ h, roomMembers_cons_ne _ _ h, ih]

/-- C4: for every sequence of `join` events addressed to the same meeting key,
including sequences with repeated participant identifiers, the resulting
participant log contains each distinct identifier exactly once (the id list is
duplicate-free and has the same members as the event sequence), and the
identifiers appear in first-seen order (the id list equals the first-seen
deduplication of the event sequence's ids). -/
theorem c4_join_dedup_first_seen (now : Int) (meetingId : String)
    (ps : List Participant) :
    ∃ md, findMeeting (applyJoins now (initMeeting now [] meetingId) meetingId ps) meetingId
        = some md
      ∧ md.participants.map (fun p => p.id) = dedupAccumIds [] (ps.map (fun p => p.id))
      ∧ (md.participants.map (fun p => p.id)).Nodup
      ∧ (∀ x, x ∈ md.participants.map (fun p => p.id) ↔ x ∈ ps.map (fun p => p.id)) := by
  have h0 : findMeeting (initMeeting now [] meetingId) meetingId
      = some (freshMeeting meetingId now) := by
    rw [findMeeting_initMeeting]
    simp [ensured, findMeeting]
  refine ⟨participantFold (freshMeeting meetingId now) ps,
    findMeeting_applyJoins now ps h0, ?_, ?_, ?_⟩
  · rw [participantFold_ids]
    rfl
  · rw [participantFold_ids]
    exact dedupAccumIds_nodup _ _ List.nodup_nil
  · intro x
    rw [participantFold_ids]
    have := mem_dedupAccumIds (ps.map (fun p => p.id)) [] x
    simpa [freshMeeting] using this

/-- C7: `initMeeting` (the store's `ensure`) is idempotent. When the key is
absent it creates a session with empty participant, transcript, chat and audio
logs, the creation timestamp, and no end time; when the key is present —
whatever the stored session is, including one whose `endTime` is set — the
entire store is left unchanged; and `initMeeting` composed with itself (at any
later time) equals a single `initMeeting`. -/
theorem c7_initMeeting_idempotent (now now2 : Int) (ms : Meetings)
    (meetingId : String) :
    (findMeeting ms meetingId = none →
      findMeeting (initMeeting now ms meetingId) meetingId
        = some { meetingId := meetingId, participants := [], transcriptions := []
                 chatMessages := [], audioChunks := [], startTime := now, endTime := none })
    ∧ (∀ md : MeetingData, findMeeting ms meetingId = some md →
        initMeeting now ms meetingId = ms)
    ∧ initMeeting now2 (initMeeting now ms meetingId) meetingId
        = initMeeting now ms meetingId := by
  refine ⟨?_, ?_, ?_⟩
  · intro h
    rw [findMeeting_initMeeting]
    simp [ensured, h, freshMeeting]
  · intro md h
    exact initMeeting_of_found h now
  · exact initMeeting_of_found (findMeeting_initMeeting now ms meetingId) now2

/-- Witness for C7 at concrete inputs: creation from the empty store, no-op on
a store already holding the key (with `endTime` set), and idempotent
composition. -/
theorem c7_witness :
    findMeeting (initMeeting 5 ([] : Meetings) "m") "m"
        = some { meetingId := "m", participants := [], transcriptions := []
                 chatMessages := [], audioChunks := [], startTime := 5, endTime := none }
      ∧ initMeeting 7 [("m", { freshMeeting "m" 5 with endTime := some 6 })] "m"
        = [("m", { freshMeeting "m" 5 with endTime := some 6 })]
      ∧ initMeeting 7 (initMeeting 5 ([] : Meetings) "m") "m"
        = initMeeting 5 ([] : Meetings) "m" :=
  ⟨(c7_initMeeting_idempotent 5 0 [] "m").1 rfl,
   (c7_initMeeting_idempotent 7 0 [("m", { freshMeeting "m" 5 with endTime := some 6 })] "m").2.1
     { freshMeeting "m" 5 with endTime := some 6 } rfl,
   (c7_initMeeting_idempotent 5 7 [] "m").2.2⟩

/-- C8: the `leave-meeting` handler — for any state, so in particular for a
participant identifier that never joined — leaves the entire storage
unchanged, emits exactly one `participant-left` notification carrying the
participant's identifier and display name, addressed to the meeting's room
excluding the sender, and that destination resolves to exactly the remaining
room members (the prior members minus the leaving connection). -/
theorem c8_leave_is_storage_noop_still_notifies (st : ServerState)
    (sid meetingId userId userName : String) (now : Int) :
    (leaveMeetingHandler st sid meetingId userId userName now).1.store = st.store
    ∧ (leaveMeetingHandler st sid meetingId userId userName now).2
        = [(Dest.roomExceptSender meetingId, OutEvent.participantLeft userId userName now)]
    ∧ recipients (leaveMeetingHandler st sid meetingId userId userName now).1.rooms sid
          (Dest.roomExceptSender meetingId)
        = (roomMembers st.rooms meetingId).filter (fun s => !(s == sid)) := by
  refine ⟨rfl, rfl, ?_⟩
  show (roomMembers (socketLeave st.rooms meetingId sid) meetingId).filter (fun s => !(s == sid))
      = (roomMembers st.rooms meetingId).filter (fun s => !(s == sid))
  rw [roomMembers_socketLeave, List.filter_filter]
  simp

/-- C9: every append operation of the store is total: after `initMeeting` the
lookup always yields a session (the missing-session guard branch is
unreachable), and each append operation leaves the key bound to a session
whose targeted log is the previous log (that of the stored session, or of the
fresh session when the key was absent) extended by exactly the new entry —
except `addParticipant` with an already-seen identifier, which leaves the
session unchanged (`participantStep`). -/
theorem c9_append_ops_total (now : Int) (ms : Meetings) (meetingId : String)
    (p : Participant) (c : AudioChunk) (t : Transcription) (m : ChatMessage) :
    (findMeeting (initMeeting now ms meetingId) meetingId).isSome = true
    ∧ findMeeting (addParticipant now ms meetingId p) meetingId
        = some (participantStep (ensured now ms meetingId) p)
    ∧ (participantStep (ensured now ms meetingId) p).participants.length
        = (if (ensured now ms meetingId).participants.any (fun q => q.id == p.id)
           then (ensured now ms meetingId).participants.length
           else (ensured now ms meetingId).participants.length + 1)
    ∧ findMeeting (addAudioChunk now ms meetingId c) meetingId
        = some { ensured now ms meetingId with
                 audioChunks := (ensured now ms meetingId).audioChunks ++ [c] }
    ∧ findMeeting (addTranscription now ms meetingId t) meetingId
        = some { ensured now ms meetingId with
                 transcriptions := (ensured now ms meetingId).transcriptions ++ [t] }
    ∧ findMeeting (addChatMessage now ms meetingId m) meetingId
        = some { ensured now ms meetingId with
                 chatMessages := (ensured now ms meetingId).chatMessages ++ [m] } := by
  refine ⟨?_, findMeeting_addParticipant now ms meetingId p, ?_,
    findMeeting_addAudioChunk now ms meetingId c,
    findMeeting_addTranscription now ms meetingId t,
    findMeeting_addChatMessage now ms meetingId m⟩
  · rw [findMeeting_initMeeting]
    rfl
  · unfold participantStep
    cases hc : (ensured now ms meetingId).participants.any (fun q => q.id == p.id)
    · simp
    · simp

/-- C10: the `get-quick-summary` handler never mutates the store; when the
meeting key exists it always emits `quick-summary-ready` to the requesting
socket (also when the collaborator failed, since `generateQuickSummary`
swallows the failure and returns the fixed fallback string);
`quick-summary-error` is emitted exactly when the key is unknown. -/
theorem c10_quick_summary_total (st : Meetings) (meetingId : String)
    (claude : Except String String) :
    (getQuickSummaryHandler st meetingId claude).1 = st
    ∧ (∀ md, findMeeting st meetingId = some md →
        (getQuickSummaryHandler st meetingId claude).2
          = [(Dest.senderSocket,
              OutEvent.quickSummaryReady meetingId (generateQuickSummary md claude))])
    ∧ (findMeeting st meetingId = none →
        (getQuickSummaryHandler st meetingId claude).2
          = [(Dest.senderSocket,
              OutEvent.quickSummaryError meetingId "Meeting data not found")])
    ∧ (∀ md msg, generateQuickSummary md (Except.error msg)
          = "No se pudo generar un resumen rápido.") := by
  refine ⟨?_, ?_, ?_, fun md msg => rfl⟩
  · cases h : findMeeting st meetingId <;> simp [getQuickSummaryHandler, h]
  · intro md h
    simp [getQuickSummaryHandler, h]
  · intro h
    simp [getQuickSummaryHandler, h]

/-- Witness for C10 at concrete inputs: an existing meeting with a failed
collaborator still gets `quick-summary-ready` (with the fallback string), an
unknown key gets `quick-summary-error`, and the store is unchanged. -/
theorem c10_witness :
    (getQuickSummaryHandler [("m", freshMeeting "m" 0)] "m" (Except.error "boom")).1
        = [("m", freshMeeting "m" 0)]
    ∧ (getQuickSummaryHandler [("m", freshMeeting "m" 0)] "m" (Except.error "boom")).2
        = [(Dest.senderSocket,
            OutEvent.quickSummaryReady "m"
              (generateQuickSummary (freshMeeting "m" 0) (Except.error "boom")))]
    ∧ (getQuickSummaryHandler ([] : Meetings) "m" (Except.error "boom")).2
        = [(Dest.senderSocket, OutEvent.quickSummaryError "m" "Meeting data not found")]
    ∧ generateQuickSummary (freshMeeting "m" 0) (Except.error "boom")
        = "No se pudo generar un resumen rápido." :=
  ⟨(c10_quick_summary_total [("m", freshMeeting "m" 0)] "m" (Except.error "boom")).1,
   (c10_quick_summary_total [("m", freshMeeting "m" 0)] "m" (Except.error "boom")).2.1
     (freshMeeting "m" 0) rfl,
   (c10_quick_summary_total ([] : Meetings) "m" (Except.error "boom")).2.2.1 rfl,
   (c10_quick_summary_total [("m", freshMeeting "m" 0)] "m" (Except.error "boom")).2.2.2
     (freshMeeting "m" 0) "boom"⟩

/-- Effect of a successful `audio-chunk` on an existing session: raw chunk and
transcript entry appended, `live-transcription` broadcast. -/
theorem audioChunkHandler_ok_found {st : Meetings} {meetingId : String}
    {md : MeetingData} (h : findMeeting st meetingId = some md)
    (userId userName : String) (audioData : List Nat) (timestamp now : Int)
    (text : String) :
    findMeeting (audioChunkHandler st meetingId userId userName audioData timestamp now
        (Except.ok text)).1 meetingId
      = some { md with
          audioChunks := md.audioChunks
            ++ [{ userId := userId, userName := userName
                  data := audioData, timestamp := timestamp }]
          transcriptions := md.transcriptions
            ++ [{ userId := userId, userName := userName
                  text := text, timestamp := timestamp }] }
    ∧ (audioChunkHandler st meetingId userId userName audioData timestamp now
        (Except.ok text)).2
      = [(Dest.room meetingId, OutEvent.liveTranscription userId userName text timestamp)] := by
  have h1 : findMeeting
      (addAudioChunk now st meetingId
        { userId := userId, userName := userName, data := audioData, timestamp := timestamp })
      meetingId
      = some { md with audioChunks := md.audioChunks
          ++ [{ userId := userId, userName := userName
                data := audioData, timestamp := timestamp }] } := by
    rw [findMeeting_addAudioChunk, ensured_of_found h]
  refine ⟨?_, rfl⟩
  simp only [audioChunkHandler]
  rw [findMeeting_addTranscription, ensured_of_found h1]

/-- C6: when transcription succeeds, the transcript entry appended to the
session and the `live-transcription` broadcast both carry the inbound event's
capture `timestamp`, not the processing time `now` (which is arbitrary and
independent here). -/
theorem c6_success_keeps_capture_timestamp (st : Meetings)
    (meetingId userId userName : String) (audioData : List Nat)
    (timestamp now : Int) (text : String) (md : MeetingData)
    (h : findMeeting st meetingId = some md) :
    findMeeting (audioChunkHandler st meetingId userId userName audioData timestamp now
        (Except.ok text)).1 meetingId
      = some { md with
          audioChunks := md.audioChunks
            ++ [{ userId := userId, userName := userName
                  data := audioData, timestamp := timestamp }]
          transcriptions := md.transcriptions
            ++ [{ userId := userId, userName := userName
                  text := text, timestamp := timestamp }] }
    ∧ (audioChunkHandler st meetingId userId userName audioData timestamp now
        (Except.ok text)).2
      = [(Dest.room meetingId, OutEvent.liveTranscription userId userName text timestamp)] :=
  audioChunkHandler_ok_found h userId userName audioData timestamp now text

/-- Witness for C6: a concrete store with one meeting, a successful
transcription whose capture timestamp 3 differs from the processing time 9;
both the stored entry and the broadcast carry 3. -/
theorem c6_witness :
    findMeeting (audioChunkHandler [("m", freshMeeting "m" 0)] "m" "u1" "Ana" [1, 2] 3 9
        (Except.ok "hola")).1 "m"
      = some { freshMeeting "m" 0 with
          audioChunks := [{ userId := "u1", userName := "Ana", data := [1, 2], timestamp := 3 }]
          transcriptions := [{ userId := "u1", userName := "Ana", text := "hola", timestamp := 3 }] }
    ∧ (audioChunkHandler [("m", freshMeeting "m" 0)] "m" "u1" "Ana" [1, 2] 3 9
        (Except.ok "hola")).2
      = [(Dest.room "m", OutEvent.liveTranscription "u1" "Ana" "hola" 3)] :=
  c6_success_keeps_capture_timestamp [("m", freshMeeting "m" 0)] "m" "u1" "Ana" [1, 2] 3 9
    "hola" (freshMeeting "m" 0) rfl

/-- C5: when transcription of a chunk fails, the raw audio record has
nevertheless been appended (it was stored before the transcription attempt),
no transcript entry is appended, every other field of the session
(participants, chat log, prior transcript entries, start and end time) is
unchanged, nothing is emitted for that chunk, and a subsequent chunk (from the
same or another participant) whose transcription succeeds is still stored,
transcribed and broadcast. -/
theorem c5_failed_transcription_contained (st : Meetings)
    (meetingId userId userName : String) (audioData : List Nat)
    (timestamp now : Int) (errMsg : String)
    (userId2 userName2 : String) (audioData2 : List Nat)
    (timestamp2 now2 : Int) (text2 : String) (md : MeetingData)
    (h : findMeeting st meetingId = some md) :
    findMeeting (audioChunkHandler st meetingId userId userName audioData timestamp now
        (Except.error errMsg)).1 meetingId
      = some { md with audioChunks := md.audioChunks
          ++ [{ userId := userId, userName := userName
                data := audioData, timestamp := timestamp }] }
    ∧ (audioChunkHandler st meetingId userId userName audioData timestamp now
        (Except.error errMsg)).2 = []
    ∧ findMeeting (audioChunkHandler
          (audioChunkHandler st meetingId userId userName audioData timestamp now
            (Except.error errMsg)).1
          meetingId userId2 userName2 audioData2 timestamp2 now2 (Except.ok text2)).1 meetingId
      = some { md with
          audioChunks := md.audioChunks
            ++ [{ userId := userId, userName := userName
                  data := audioData, timestamp := timestamp },
                { userId := userId2, userName := userName2
                  data := audioData2, timestamp := timestamp2 }]
          transcriptions := md.transcriptions
            ++ [{ userId := userId2, userName := userName2
                  text := text2, timestamp := timestamp2 }] }
    ∧ (audioChunkHandler
          (audioChunkHandler st meetingId userId userName audioData timestamp now
            (Except.error errMsg)).1
          meetingId userId2 userName2 audioData2 timestamp2 now2 (Except.ok text2)).2
      = [(Dest.room meetingId, OutEvent.liveTranscription userId2 userName2 text2 timestamp2)] := by
  have h1 : findMeeting
      (addAudioChunk now st meetingId
        { userId := userId, userName := userName, data := audioData, timestamp := timestamp })
      meetingId
      = some { md with audioChunks := md.audioChunks
          ++ [{ userId := userId, userName := userName
                data := audioData, timestamp := timestamp }] } := by
    rw [findMeeting_addAudioChunk, ensured_of_found h]
  have hfst : (audioChunkHandler st meetingId userId userName audioData timestamp now
      (Except.error errMsg)).1
      = addAudioChunk now st meetingId
          { userId := userId, userName := userName, data := audioData, timestamp := timestamp } := rfl
  refine ⟨by rw [hfst, h1], rfl, ?_, rfl⟩
  rw [hfst]
  obtain ⟨hA, hB⟩ := audioChunkHandler_ok_found h1 userId2 userName2 audioData2
    timestamp2 now2 text2
  rw [hA]
  simp

/-- Witness for C5: a failed chunk leaves only the raw audio record (no
transcript entry, nothing emitted); the next chunk still transcribes and
broadcasts. -/
theorem c5_witness :
    findMeeting (audioChunkHandler [("m", freshMeeting "m" 0)] "m" "u1" "Ana" [1] 3 9
        (Except.error "timeout")).1 "m"
      = some { freshMeeting "m" 0 with
          audioChunks := [{ userId := "u1", userName := "Ana", data := [1], timestamp := 3 }] }
    ∧ (audioChunkHandler [("m", freshMeeting "m" 0)] "m" "u1" "Ana" [1] 3 9
        (Except.error "timeout")).2 = []
    ∧ findMeeting (audioChunkHandler
          (audioChunkHandler [("m", freshMeeting "m" 0)] "m" "u1" "Ana" [1] 3 9
            (Except.error "timeout")).1
          "m" "u2" "Luis" [2] 4 10 (Except.ok "mundo")).1 "m"
      = some { freshMeeting "m" 0 with
          audioChunks := [{ userId := "u1", userName := "Ana", data := [1], timestamp := 3 },
                          { userId := "u2", userName := "Luis", data := [2], timestamp := 4 }]
          transcriptions := [{ userId := "u2", userName := "Luis", text := "mundo", timestamp := 4 }] }
    ∧ (audioChunkHandler
          (audioChunkHandler [("m", freshMeeting "m" 0)] "m" "u1" "Ana" [1] 3 9
            (Except.error "timeout")).1
          "m" "u2" "Luis" [2] 4 10 (Except.ok "mundo")).2
      = [(Dest.room "m", OutEvent.liveTranscription "u2" "Luis" "mundo" 4)] :=
  c5_failed_transcription_contained [("m", freshMeeting "m" 0)] "m" "u1" "Ana" [1] 3 9
    "timeout" "u2" "Luis" [2] 4 10 "mundo" (freshMeeting "m" 0) rfl

theorem generateSummaryHandler_found {st : Meetings} {meetingId : String}
    {md : MeetingData} (h : findMeeting st meetingId = some md) (text : String)
    (parsed : Option ParsedFields) (emailOk : Bool) (now : Int) :
    generateSummaryHandler st meetingId (ClaudeResult.response text parsed) emailOk now
      = { store := endMeeting now st meetingId
          emits :=
            [(Dest.senderSocket,
                OutEvent.summaryGenerating meetingId "Generando resumen con IA..."),
             (Dest.room meetingId, OutEvent.summaryReady meetingId
                (parseClaudeResponse parsed text { md with endTime := some now } now) true),
             (Dest.senderSocket, OutEvent.summaryReady meetingId
                (parseClaudeResponse parsed text { md with endTime := some now } now) true)]
          summarizerCalls := 1
          clearScheduled := true } := by
  have h1 := findMeeting_endMeeting_of_found h now
  simp [generateSummaryHandler, h1, generateSummary]

theorem generateSummaryHandler_apiError {st : Meetings} {meetingId : String}
    {md : MeetingData} (h : findMeeting st meetingId = some md) (msg : String)
    (emailOk : Bool) (now : Int) :
    generateSummaryHandler st meetingId (ClaudeResult.apiError msg) emailOk now
      = { store := endMeeting now st meetingId
          emits :=
            [(Dest.senderSocket,
                OutEvent.summaryGenerating meetingId "Generando resumen con IA..."),
             (Dest.senderSocket,
                OutEvent.summaryError meetingId ("Failed to generate summary: " ++ msg))]
          summarizerCalls := 1
          clearScheduled := false } := by
  have h1 := findMeeting_endMeeting_of_found h now
  simp [generateSummaryHandler, h1, generateSummary]

/-- Counterexample to C1 as stated: on a concrete store holding one meeting,
triggering `generate-summary` twice results in two invocations of the
summarization collaborator and two `summary-ready` broadcasts to the meeting
room, not one of each. -/
theorem c1_counterexample :
    (twoSummaryTriggers (initMeeting 0 [] "m") "m"
        (ClaudeResult.response "r" none) (ClaudeResult.response "r" none)
        true true 1 2).1.summarizerCalls
      + (twoSummaryTriggers (initMeeting 0 [] "m") "m"
          (ClaudeResult.response "r" none) (ClaudeResult.response "r" none)
          true true 1 2).2.summarizerCalls = 2
    ∧ roomSummaryReadyCount "m"
        ((twoSummaryTriggers (initMeeting 0 [] "m") "m"
            (ClaudeResult.response "r" none) (ClaudeResult.response "r" none)
            true true 1 2).1.emits
          ++ (twoSummaryTriggers (initMeeting 0 [] "m") "m"
              (ClaudeResult.response "r" none) (ClaudeResult.response "r" none)
              true true 1 2).2.emits) = 2 := by
  refine ⟨?_, ?_⟩
  · rfl
  · rfl

/-- C1 amended: the `generate-summary` handler has no lifecycle guard, so for
a meeting that exists, each of two triggers (here in a sequential schedule of
the race) invokes the summarization collaborator exactly once and broadcasts
`summary-ready` to the room exactly once — two invocations and two broadcasts
in total; the duplicate trigger re-runs the whole pipeline rather than
observing an advanced lifecycle state, and it also overwrites `endTime` with
its own trigger time. -/
theorem c1_amended_duplicate_trigger_reruns (st : Meetings) (meetingId : String)
    (text1 text2 : String) (parsed1 parsed2 : Option ParsedFields)
    (e1 e2 : Bool) (t1 t2 : Int) (md : MeetingData)
    (h : findMeeting st meetingId = some md) :
    (twoSummaryTriggers st meetingId (ClaudeResult.response text1 parsed1)
        (ClaudeResult.response text2 parsed2) e1 e2 t1 t2).1.summarizerCalls = 1
    ∧ (twoSummaryTriggers st meetingId (ClaudeResult.response text1 parsed1)
        (ClaudeResult.response text2 parsed2) e1 e2 t1 t2).2.summarizerCalls = 1
    ∧ roomSummaryReadyCount meetingId
        (twoSummaryTriggers st meetingId (ClaudeResult.response text1 parsed1)
          (ClaudeResult.response text2 parsed2) e1 e2 t1 t2).1.emits = 1
    ∧ roomSummaryReadyCount meetingId
        (twoSummaryTriggers st meetingId (ClaudeResult.response text1 parsed1)
          (ClaudeResult.response text2 parsed2) e1 e2 t1 t2).2.emits = 1
    ∧ findMeeting (twoSummaryTriggers st meetingId (ClaudeResult.response text1 parsed1)
          (ClaudeResult.response text2 parsed2) e1 e2 t1 t2).2.store meetingId
        = some { md with endTime := some t2 } := by
  have h1 := findMeeting_endMeeting_of_found h t1
  have hh1 := generateSummaryHandler_found h text1 parsed1 e1 t1
  have hh2 := generateSummaryHandler_found h1 text2 parsed2 e2 t2
  have h2 := findMeeting_endMeeting_of_found h1 t2
  simp only [twoSummaryTriggers, hh1]
  simp only [hh2]
  refine ⟨?_, ?_, ?_, ?_, ?_⟩
  · trivial
  · trivial
  · simp [roomSummaryReadyCount, isRoomSummaryReady]
  · simp [roomSummaryReadyCount, isRoomSummaryReady]
  · exact h2

/-- Witness for the amended C1 at concrete inputs. -/
theorem c1_witness :
    (twoSummaryTriggers [("m", freshMeeting "m" 0)] "m"
        (ClaudeResult.response "r" none) (ClaudeResult.response "r" none)
        true true 1 2).1.summarizerCalls = 1
    ∧ (twoSummaryTriggers [("m", freshMeeting "m" 0)] "m"
        (ClaudeResult.response "r" none) (ClaudeResult.response "r" none)
        true true 1 2).2.summarizerCalls = 1
    ∧ roomSummaryReadyCount "m"
        (twoSummaryTriggers [("m", freshMeeting "m" 0)] "m"
          (ClaudeResult.response "r" none) (ClaudeResult.response "r" none)
          true true 1 2).1.emits = 1
    ∧ roomSummaryReadyCount "m"
        (twoSummaryTriggers [("m", freshMeeting "m" 0)] "m"
          (ClaudeResult.response "r" none) (ClaudeResult.response "r" none)
          true true 1 2).2.emits = 1
    ∧ findMeeting (twoSummaryTriggers [("m", freshMeeting "m" 0)] "m"
          (ClaudeResult.response "r" none) (ClaudeResult.response "r" none)
          true true 1 2).2.store "m"
        = some { freshMeeting "m" 0 with endTime := some 2 } :=
  c1_amended_duplicate_trigger_reruns [("m", freshMeeting "m" 0)] "m" "r" "r"
    none none true true 1 2 (freshMeeting "m" 0) rfl

/-- Counterexample to C2 as stated: `endMeeting` called a second time on a
concrete session overwrites the `endTime` previously set (1) with the later
call's time (2). -/
theorem c2_counterexample :
    findMeeting (endMeeting 1 (initMeeting 0 [] "m") "m") "m"
        = some { freshMeeting "m" 0 with endTime := some 1 }
    ∧ findMeeting (endMeeting 2 (endMeeting 1 (initMeeting 0 [] "m") "m") "m") "m"
        = some { freshMeeting "m" 0 with endTime := some 2 }
    ∧ (some (2 : Int) ≠ some (1 : Int)) := ⟨rfl, rfl, by decide⟩

/-- C2 amended: `endTime` is not immutable — every `endMeeting` call on an
existing key overwrites it with that call's current time, so a second call
replaces the previously set value; the transcript and chat logs, however, are
genuinely append-only: each store operation leaves the historical entries in
place and in order, at most appending one new entry. -/
theorem c2_amended_endTime_overwritten_logs_append (now : Int) (ms : Meetings)
    (meetingId : String) (p : Participant) (c : AudioChunk) (t : Transcription)
    (m : ChatMessage) (md : MeetingData)
    (h : findMeeting ms meetingId = some md) :
    findMeeting (endMeeting now ms meetingId) meetingId
        = some { md with endTime := some now }
    ∧ (∃ md1, findMeeting (addTranscription now ms meetingId t) meetingId = some md1
        ∧ md1.transcriptions = md.transcriptions ++ [t]
        ∧ md1.chatMessages = md.chatMessages)
    ∧ (∃ md2, findMeeting (addChatMessage now ms meetingId m) meetingId = some md2
        ∧ md2.chatMessages = md.chatMessages ++ [m]
        ∧ md2.transcriptions = md.transcriptions)
    ∧ (∃ md3, findMeeting (addParticipant now ms meetingId p) meetingId = some md3
        ∧ md3.transcriptions = md.transcriptions
        ∧ md3.chatMessages = md.chatMessages)
    ∧ (∃ md4, findMeeting (addAudioChunk now ms meetingId c) meetingId = some md4
        ∧ md4.transcriptions = md.transcriptions
        ∧ md4.chatMessages = md.chatMessages)
    ∧ initMeeting now ms meetingId = ms := by
  refine ⟨findMeeting_endMeeting_of_found h now, ?_, ?_, ?_, ?_,
    initMeeting_of_found h now⟩
  · exact ⟨{ md with transcriptions := md.transcriptions ++ [t] },
      by rw [findMeeting_addTranscription, ensured_of_found h], rfl, rfl⟩
  · exact ⟨{ md with chatMessages := md.chatMessages ++ [m] },
      by rw [findMeeting_addChatMessage, ensured_of_found h], rfl, rfl⟩
  · refine ⟨participantStep md p,
      by rw [findMeeting_addParticipant, ensured_of_found h], ?_, ?_⟩
    · unfold participantStep
      split <;> rfl
    · unfold participantStep
      split <;> rfl
  · exact ⟨{ md with audioChunks := md.audioChunks ++ [c] },
      by rw [findMeeting_addAudioChunk, ensured_of_found h], rfl, rfl⟩

/-- Witness for the amended C2 at concrete inputs. -/
theorem c2_witness :
    findMeeting (endMeeting 9 [("m", freshMeeting "m" 0)] "m") "m"
        = some { freshMeeting "m" 0 with endTime := some 9 }
    ∧ (∃ md1, findMeeting (addTranscription 9 [("m", freshMeeting "m" 0)] "m"
          { userId := "u", userName := "U", text := "t", timestamp := 1 }) "m" = some md1
        ∧ md1.transcriptions = [{ userId := "u", userName := "U", text := "t", timestamp := 1 }]
        ∧ md1.chatMessages = [])
    ∧ initMeeting 9 [("m", freshMeeting "m" 0)] "m" = [("m", freshMeeting "m" 0)] := by
  obtain ⟨h1, h2, _, _, _, h6⟩ := c2_amended_endTime_overwritten_logs_append 9
    [("m", freshMeeting "m" 0)] "m"
    { id := "u", name := "U", email := "e" }
    { userId := "u", userName := "U", data := [], timestamp := 1 }
    { userId := "u", userName := "U", text := "t", timestamp := 1 }
    { userId := "u", userName := "U", message := "hola", timestamp := 1 }
    (freshMeeting "m" 0) rfl
  exact ⟨h1, h2, h6⟩

/-- Counterexample to C3 as stated: on unparsable model output the fallback's
topic list is a one-element generic list, not empty; and when the collaborator
call itself fails (rather than returning unparsable output), the handler
surfaces a `summary-error` event to the requesting client instead of any
fallback summary. -/
theorem c3_counterexample :
    (parseClaudeResponse none "respuesta sin JSON"
        { meetingId := "m"
          participants := [{ id := "u1", name := "Ana", email := "a@x" }]
          transcriptions := [], chatMessages := [], audioChunks := []
          startTime := 0, endTime := some 60000 } 7).topics
      = ["Información de la reunión procesada"]
    ∧ (["Información de la reunión procesada"] ≠ ([] : List String))
    ∧ (generateSummaryHandler (initMeeting 0 [] "m") "m"
          (ClaudeResult.apiError "boom") true 9).emits
      = [(Dest.senderSocket, OutEvent.summaryGenerating "m" "Generando resumen con IA..."),
         (Dest.senderSocket,
            OutEvent.summaryError "m" "Failed to generate summary: boom")] :=
  ⟨rfl, by decide, rfl⟩

/-- C3 amended: when the summarization collaborator returns malformed or
unparsable output, the end-meeting pipeline still succeeds, broadcasting a
non-empty fallback Summary assembled mechanically from the snapshot — each
participant with the generic note, an empty task list, a one-element generic
topic list, a one-element generic next-step list, and a truncated excerpt of
the raw text as the narrative; when the collaborator call itself fails, the
handler instead surfaces a `summary-error` event to the requesting client. -/
theorem c3_amended_fallback_only_for_unparsable (st : Meetings) (meetingId : String)
    (text : String) (e : Bool) (now : Int) (msg : String) (md : MeetingData)
    (h : findMeeting st meetingId = some md) :
    (generateSummaryHandler st meetingId (ClaudeResult.response text none) e now).emits
      = [(Dest.senderSocket, OutEvent.summaryGenerating meetingId "Generando resumen con IA..."),
         (Dest.room meetingId, OutEvent.summaryReady meetingId
            (parseClaudeResponse none text { md with endTime := some now } now) true),
         (Dest.senderSocket, OutEvent.summaryReady meetingId
            (parseClaudeResponse none text { md with endTime := some now } now) true)]
    ∧ (parseClaudeResponse none text { md with endTime := some now } now).participants
        = md.participants.map
            (fun p => { name := p.name, contributions := "Participó en la reunión" })
    ∧ (parseClaudeResponse none text { md with endTime := some now } now).tasks = []
    ∧ (parseClaudeResponse none text { md with endTime := some now } now).topics
        = ["Información de la reunión procesada"]
    ∧ (parseClaudeResponse none text { md with endTime := some now } now).nextSteps
        = ["Revisar el contenido de la reunión"]
    ∧ (parseClaudeResponse none text { md with endTime := some now } now).summary
        = truncateTo 500 text ++ "..."
    ∧ (generateSummaryHandler st meetingId (ClaudeResult.apiError msg) e now).emits
        = [(Dest.senderSocket,
              OutEvent.summaryGenerating meetingId "Generando resumen con IA..."),
           (Dest.senderSocket,
              OutEvent.summaryError meetingId ("Failed to generate summary: " ++ msg))] := by
  refine ⟨?_, rfl, rfl, rfl, rfl, rfl, ?_⟩
  · rw [generateSummaryHandler_found h]
  · rw [generateSummaryHandler_apiError h]

/-- Witness for the amended C3 at concrete inputs. -/
theorem c3_witness :
    (generateSummaryHandler [("m", freshMeeting "m" 0)] "m"
        (ClaudeResult.response "sin JSON" none) true 9).emits
      = [(Dest.senderSocket, OutEvent.summaryGenerating "m" "Generando resumen con IA..."),
         (Dest.room "m", OutEvent.summaryReady "m"
            (parseClaudeResponse none "sin JSON"
              { freshMeeting "m" 0 with endTime := some 9 } 9) true),
         (Dest.senderSocket, OutEvent.summaryReady "m"
            (parseClaudeResponse none "sin JSON"
              { freshMeeting "m" 0 with endTime := some 9 } 9) true)]
    ∧ (parseClaudeResponse none "sin JSON"
          { freshMeeting "m" 0 with endTime := some 9 } 9).tasks = []
    ∧ (parseClaudeResponse none "sin JSON"
          { freshMeeting "m" 0 with endTime := some 9 } 9).topics
        = ["Información de la reunión procesada"] := by
  obtain ⟨h1, _, h3, h4, _, _, _⟩ := c3_amended_fallback_only_for_unparsable
    [("m", freshMeeting "m" 0)] "m" "sin JSON" true 9 "boom" (freshMeeting "m" 0) rfl
  exact ⟨h1, h3, h4⟩

end JoinGo
